import Mathlib

/-!
Shallow embedding of the SDN sanctions-screening engine
(`src/app/connector/typescript/functions.ts`): the three exported operations
`getSdnData`, `checkCustomerAgainstSdn`, `bulkCheckSdn`, with the remote
provider modelled as a function from the outbound query parameters to a
fetch outcome (network exception, non-2xx response, or 2xx with a parsed
JSON body). Each operation returns its result paired with the list of
outbound requests it issued, so that "no network calls are made" is a
provable statement.
-/

namespace AmlSdn

/-- One SDN watchlist record, mirroring the `SdnRecord` interface. -/
structure SdnRecord where
  id : String
  schema : String
  name : String
  aliases : String
  birth_date : String
  countries : String
  addresses : String
  identifiers : String
  sanctions : String
  phones : String
  emails : String
  dataset : String
  first_seen : String
  last_seen : String
  last_change : String
deriving DecidableEq, Repr, Inhabited

/-- A parsed 2xx JSON body as the TypeScript code observes it at runtime:
either an array of records, or any other JSON value (`Array.isArray` fails);
the `payload` string abstractly distinguishes non-array payloads. -/
inductive JsonValue where
  | arr (records : List SdnRecord)
  | nonArray (payload : String)
deriving DecidableEq, Repr, Inhabited

/-- Outcome of one `fetch` of the provider: a network-level exception
(`some msg` when the thrown value is an `Error` with that message, `none`
when it is not an `Error`), a non-2xx response carrying its `statusText`,
or a 2xx response with a parsed JSON body. -/
inductive FetchOutcome where
  | throwErr (msg : Option String)
  | notOk (statusText : String)
  | ok (body : JsonValue)
deriving DecidableEq, Repr, Inhabited

/-- The query parameters of one outbound request, in append order. -/
abbrev Params := List (String × String)

/-- The remote provider: a function from the outbound query parameters to
the outcome of the fetch. -/
abbrev Provider := Params → FetchOutcome

/-- `error instanceof Error ? error.message : 'Unknown error'`. -/
def errText (m : Option String) : String := m.getD "Unknown error"

/-- The `SdnDataResponse` shape. The declared TypeScript type of `data` is
`SdnRecord[]`, but the code stores the raw parsed body there (via an
unchecked `as` cast), so the field is dynamically a `JsonValue`. -/
structure SdnDataResponse where
  success : Bool
  data : JsonValue
  count : Nat
  error : Option String
deriving DecidableEq, Repr, Inhabited

/-- Query-parameter construction in `getSdnData`: `name` and `country` are
appended when truthy (present and non-empty), `limit` when nonzero. -/
def buildGetSdnParams (name country : Option String) (limit : Int) : Params :=
  (match name with
    | some s => if s = "" then [] else [("name", s)]
    | none => [])
  ++ (match country with
    | some s => if s = "" then [] else [("country", s)]
    | none => [])
  ++ (if limit = 0 then [] else [("limit", toString limit)])

/-- The `try`/`catch` body of `getSdnData` as a function of the fetch
outcome: non-2xx throws `SDN API request failed: <statusText>` which the
`catch` converts to a failure response; a 2xx body is stored raw in `data`
with `count` guarded by `Array.isArray`. -/
def lookupResponse : FetchOutcome → SdnDataResponse
  | .throwErr m =>
      { success := false, error := some (errText m), data := .arr [], count := 0 }
  | .notOk st =>
      { success := false, error := some ("SDN API request failed: " ++ st),
        data := .arr [], count := 0 }
  | .ok body =>
      { success := true, error := none, data := body,
        count := match body with | .arr rs => rs.length | .nonArray _ => 0 }

/-- `getSdnData(name?, country?, limit = 100)`: issues exactly one request
built by `buildGetSdnParams` and normalizes the outcome. -/
def getSdnData (provider : Provider) (name country : Option String)
    (limit : Int) : SdnDataResponse × List Params :=
  let req := buildGetSdnParams name country limit
  (lookupResponse (provider req), [req])

/-- The `CustomerCheckResponse` shape; `isSDN : boolean | null` becomes
`Option Bool`, and `matches` (declared `SdnRecord[]`, dynamically the raw
parsed body) becomes `JsonValue`. -/
structure CustomerCheckResponse where
  customerName : String
  isSDN : Option Bool
  matchCount : Nat
  «matches» : JsonValue
  riskLevel : String
  error : Option String
deriving DecidableEq, Repr, Inhabited

/-- Query-parameter construction in `checkCustomerAgainstSdn`: `name` is
appended unconditionally, `fuzzy=true` when the flag is set. -/
def buildCheckParams (customerName : String) (fuzzyMatch : Bool) : Params :=
  [("name", customerName)] ++ (if fuzzyMatch then [("fuzzy", "true")] else [])

/-- The `try`/`catch` body of `checkCustomerAgainstSdn` as a function of
the fetch outcome: failures yield `isSDN: null` / `UNKNOWN` with the error
recorded; a 2xx body yields `hasMatch = Array.isArray(matches) &&
matches.length > 0`, with `matches` stored raw. -/
def classifyFetch (customerName : String) : FetchOutcome → CustomerCheckResponse
  | .throwErr m =>
      { customerName := customerName, isSDN := none, error := some (errText m),
        «matches» := .arr [], matchCount := 0, riskLevel := "UNKNOWN" }
  | .notOk st =>
      { customerName := customerName, isSDN := none,
        error := some ("SDN check failed: " ++ st),
        «matches» := .arr [], matchCount := 0, riskLevel := "UNKNOWN" }
  | .ok body =>
      let hasMatch : Bool :=
        match body with | .arr rs => decide (0 < rs.length) | .nonArray _ => false
      { customerName := customerName, isSDN := some hasMatch,
        matchCount := match body with | .arr rs => rs.length | .nonArray _ => 0,
        «matches» := body,
        riskLevel := if hasMatch then "CRITICAL" else "CLEAR",
        error := none }

/-- `checkCustomerAgainstSdn(customerName, fuzzyMatch = true)`: issues
exactly one request and classifies its outcome. -/
def checkCustomerAgainstSdn (provider : Provider) (customerName : String)
    (fuzzyMatch : Bool) : CustomerCheckResponse × List Params :=
  let req := buildCheckParams customerName fuzzyMatch
  (classifyFetch customerName (provider req), [req])

/-- The `summary` object of a bulk check. -/
structure BulkCheckSummary where
  critical : Nat
  clear : Nat
  unknown : Nat
deriving DecidableEq, Repr, Inhabited

/-- The `BulkCheckResponse` shape. -/
structure BulkCheckResponse where
  success : Bool
  totalChecked : Nat
  flaggedCount : Nat
  results : List CustomerCheckResponse
  summary : BulkCheckSummary
  error : Option String
deriving DecidableEq, Repr, Inhabited

/-- The dynamic argument of `bulkCheckSdn` as `Array.isArray` sees it:
an actual array of strings, or any non-array value (`null`, an object, …). -/
inductive JsInput where
  | arr (names : List String)
  | nonArray
deriving DecidableEq, Repr, Inhabited

/-- The early-return value when input validation fails. -/
def invalidBulkResponse : BulkCheckResponse :=
  { success := false, error := some "customerNames must be a non-empty array",
    results := [], totalChecked := 0, flaggedCount := 0,
    summary := { critical := 0, clear := 0, unknown := 0 } }

/-- `bulkCheckSdn(customerNames)`: validates the input, then fans out one
`checkCustomerAgainstSdn(name, true)` per name and aggregates.
`Promise.all` resolves to the results in input order, modelled by `map`;
its `catch` is unreachable because the per-name check never rejects, so the
embedding has no failure branch after validation. -/
def bulkCheckSdn (provider : Provider) (customerNames : JsInput) :
    BulkCheckResponse × List Params :=
  match customerNames with
  | .nonArray => (invalidBulkResponse, [])
  | .arr names =>
    if names.length = 0 then (invalidBulkResponse, [])
    else
      let runs := names.map (fun n => checkCustomerAgainstSdn provider n true)
      let results := runs.map Prod.fst
      let flaggedCustomers := results.filter (fun r => r.isSDN == some true)
      ({ success := true,
         totalChecked := results.length,
         flaggedCount := flaggedCustomers.length,
         results := results,
         summary :=
           { critical := flaggedCustomers.length,
             clear := (results.filter (fun r => r.riskLevel == "CLEAR")).length,
             unknown := (results.filter (fun r => r.riskLevel == "UNKNOWN")).length },
         error := none },
       (runs.map Prod.snd).flatten)

/-- `true` exactly when the fetch outcome is a failure (network exception
or non-2xx response). -/
def fetchFailed : FetchOutcome → Bool
  | .throwErr _ => true
  | .notOk _ => true
  | .ok _ => false

/-! ## Per-entry lemmas about the single-name classification -/

lemma classifyFetch_customerName (n : String) (out : FetchOutcome) :
    (classifyFetch n out).customerName = n := by
  cases out <;> rfl

/-- Every classification lands in exactly one of the three buckets used by
the bulk aggregation: flagged (`isSDN = some true`, risk `CRITICAL`),
`CLEAR`, or `UNKNOWN`. -/
lemma classifyFetch_cases (n : String) (out : FetchOutcome) :
    (((classifyFetch n out).isSDN == some true) = true ∧
      ((classifyFetch n out).riskLevel == "CLEAR") = false ∧
      ((classifyFetch n out).riskLevel == "UNKNOWN") = false) ∨
    (((classifyFetch n out).isSDN == some true) = false ∧
      ((classifyFetch n out).riskLevel == "CLEAR") = true ∧
      ((classifyFetch n out).riskLevel == "UNKNOWN") = false) ∨
    (((classifyFetch n out).isSDN == some true) = false ∧
      ((classifyFetch n out).riskLevel == "CLEAR") = false ∧
      ((classifyFetch n out).riskLevel == "UNKNOWN") = true) := by
  cases out with
  | throwErr m => right; right; simp [classifyFetch]
  | notOk st => right; right; simp [classifyFetch]
  | ok body =>
    cases body with
    | arr rs =>
      cases rs with
      | nil => right; left; simp [classifyFetch]
      | cons a l => left; simp [classifyFetch]
    | nonArray p => right; left; simp [classifyFetch]

lemma classifyFetch_failed (n : String) (out : FetchOutcome)
    (h : fetchFailed out = true) :
    (classifyFetch n out).isSDN = none ∧
      (classifyFetch n out).riskLevel = "UNKNOWN" ∧
      (classifyFetch n out).error.isSome = true := by
  cases out with
  | throwErr m => simp [classifyFetch]
  | notOk st => simp [classifyFetch]
  | ok body => simp [fetchFailed] at h

/-- Counting helper: when every element of a list falls in exactly one of
three disjoint boolean buckets, the three bucket counts sum to the length. -/
lemma countP_three_way {α : Type} (p q r : α → Bool) :
    ∀ l : List α,
      (∀ x ∈ l,
        (p x = true ∧ q x = false ∧ r x = false) ∨
        (p x = false ∧ q x = true ∧ r x = false) ∨
        (p x = false ∧ q x = false ∧ r x = true)) →
      l.countP p + l.countP q + l.countP r = l.length
  | [], _ => by simp
  | a :: l, h => by
    have ha := h a (List.mem_cons_self a l)
    have ih := countP_three_way p q r l (fun x hx => h x (List.mem_cons_of_mem a hx))
    simp only [List.countP_cons, List.length_cons]
    rcases ha with ⟨h1, h2, h3⟩ | ⟨h1, h2, h3⟩ | ⟨h1, h2, h3⟩ <;>
      simp [h1, h2, h3] <;> omega

/-- A concrete watchlist record used by witnesses and counterexamples. -/
def sampleRecord : SdnRecord :=
  { id := "9639", schema := "Person", name := "Known Sanctioned Entity",
    aliases := "", birth_date := "", countries := "Iran", addresses := "",
    identifiers := "", sanctions := "SDN List", phones := "", emails := "",
    dataset := "us_ofac_sdn", first_seen := "", last_seen := "",
    last_change := "" }

/-- C1: the single-name check classifies deterministically by the lookup
outcome: a failed provider call (network error or non-2xx) gives
`isSDN = null`, risk `UNKNOWN` and a populated error; an empty array gives
`isSDN = false`, risk `CLEAR`; a non-empty array of length k gives
`isSDN = true`, risk `CRITICAL`, `matchCount = k` and `matches` the full
untruncated record sequence. -/
theorem C1_check_classification (provider : Provider) (customerName : String)
    (fuzzyMatch : Bool) :
    (∀ m, provider (buildCheckParams customerName fuzzyMatch) = .throwErr m →
      (checkCustomerAgainstSdn provider customerName fuzzyMatch).fst.isSDN = none ∧
      (checkCustomerAgainstSdn provider customerName fuzzyMatch).fst.riskLevel = "UNKNOWN" ∧
      (checkCustomerAgainstSdn provider customerName fuzzyMatch).fst.error.isSome = true) ∧
    (∀ st, provider (buildCheckParams customerName fuzzyMatch) = .notOk st →
      (checkCustomerAgainstSdn provider customerName fuzzyMatch).fst.isSDN = none ∧
      (checkCustomerAgainstSdn provider customerName fuzzyMatch).fst.riskLevel = "UNKNOWN" ∧
      (checkCustomerAgainstSdn provider customerName fuzzyMatch).fst.error.isSome = true) ∧
    (provider (buildCheckParams customerName fuzzyMatch) = .ok (.arr []) →
      (checkCustomerAgainstSdn provider customerName fuzzyMatch).fst.isSDN = some false ∧
      (checkCustomerAgainstSdn provider customerName fuzzyMatch).fst.riskLevel = "CLEAR" ∧
      (checkCustomerAgainstSdn provider customerName fuzzyMatch).fst.matchCount = 0) ∧
    (∀ rs : List SdnRecord, rs ≠ [] →
      provider (buildCheckParams customerName fuzzyMatch) = .ok (.arr rs) →
      (checkCustomerAgainstSdn provider customerName fuzzyMatch).fst.isSDN = some true ∧
      (checkCustomerAgainstSdn provider customerName fuzzyMatch).fst.riskLevel = "CRITICAL" ∧
      (checkCustomerAgainstSdn provider customerName fuzzyMatch).fst.matchCount = rs.length ∧
      (checkCustomerAgainstSdn provider customerName fuzzyMatch).fst.«matches» = .arr rs) := by
  refine ⟨?_, ?_, ?_, ?_⟩
  · intro m h
    simp [checkCustomerAgainstSdn, classifyFetch, h]
  · intro st h
    simp [checkCustomerAgainstSdn, classifyFetch, h]
  · intro h
    simp [checkCustomerAgainstSdn, classifyFetch, h]
  · intro rs hrs h
    cases rs with
    | nil => exact absurd rfl hrs
    | cons a l => simp [checkCustomerAgainstSdn, classifyFetch, h]

/-- Witness for C1 at concrete providers exhibiting each lookup outcome. -/
theorem C1_check_classification_witness :
    ((checkCustomerAgainstSdn (fun _ => .throwErr (some "fetch failed"))
        "Jane Doe" true).fst.isSDN = none ∧
      (checkCustomerAgainstSdn (fun _ => .throwErr (some "fetch failed"))
        "Jane Doe" true).fst.riskLevel = "UNKNOWN" ∧
      (checkCustomerAgainstSdn (fun _ => .throwErr (some "fetch failed"))
        "Jane Doe" true).fst.error.isSome = true) ∧
    ((checkCustomerAgainstSdn (fun _ => .notOk "Service Unavailable")
        "Jane Doe" true).fst.isSDN = none ∧
      (checkCustomerAgainstSdn (fun _ => .notOk "Service Unavailable")
        "Jane Doe" true).fst.riskLevel = "UNKNOWN" ∧
      (checkCustomerAgainstSdn (fun _ => .notOk "Service Unavailable")
        "Jane Doe" true).fst.error.isSome = true) ∧
    ((checkCustomerAgainstSdn (fun _ => .ok (.arr []))
        "Jane Doe" true).fst.isSDN = some false ∧
      (checkCustomerAgainstSdn (fun _ => .ok (.arr []))
        "Jane Doe" true).fst.riskLevel = "CLEAR" ∧
      (checkCustomerAgainstSdn (fun _ => .ok (.arr []))
        "Jane Doe" true).fst.matchCount = 0) ∧
    ((checkCustomerAgainstSdn (fun _ => .ok (.arr [sampleRecord]))
        "Jane Doe" true).fst.isSDN = some true ∧
      (checkCustomerAgainstSdn (fun _ => .ok (.arr [sampleRecord]))
        "Jane Doe" true).fst.riskLevel = "CRITICAL" ∧
      (checkCustomerAgainstSdn (fun _ => .ok (.arr [sampleRecord]))
        "Jane Doe" true).fst.matchCount = 1 ∧
      (checkCustomerAgainstSdn (fun _ => .ok (.arr [sampleRecord]))
        "Jane Doe" true).fst.«matches» = .arr [sampleRecord]) :=
  ⟨(C1_check_classification (fun _ => .throwErr (some "fetch failed"))
      "Jane Doe" true).1 (some "fetch failed") rfl,
   (C1_check_classification (fun _ => .notOk "Service Unavailable")
      "Jane Doe" true).2.1 "Service Unavailable" rfl,
   (C1_check_classification (fun _ => .ok (.arr []))
      "Jane Doe" true).2.2.1 rfl,
   (C1_check_classification (fun _ => .ok (.arr [sampleRecord]))
      "Jane Doe" true).2.2.2 [sampleRecord] (List.cons_ne_nil _ _) rfl⟩

/-- C9: when the provider responds 2xx with a non-array JSON body, the
single-name check classifies it as `CLEAR` with `isSDN = false`,
`matchCount = 0` and no error, while `matches` holds the raw non-array
payload itself rather than an empty sequence. -/
theorem C9_nonarray_payload_clear (provider : Provider) (customerName : String)
    (fuzzyMatch : Bool) (payload : String)
    (h : provider (buildCheckParams customerName fuzzyMatch) = .ok (.nonArray payload)) :
    (checkCustomerAgainstSdn provider customerName fuzzyMatch).fst.isSDN = some false ∧
    (checkCustomerAgainstSdn provider customerName fuzzyMatch).fst.riskLevel = "CLEAR" ∧
    (checkCustomerAgainstSdn provider customerName fuzzyMatch).fst.matchCount = 0 ∧
    (checkCustomerAgainstSdn provider customerName fuzzyMatch).fst.error = none ∧
    (checkCustomerAgainstSdn provider customerName fuzzyMatch).fst.«matches» = .nonArray payload := by
  simp [checkCustomerAgainstSdn, classifyFetch, h]

/-- Witness for C9 at a provider returning a non-array JSON object. -/
theorem C9_nonarray_payload_clear_witness :
    (checkCustomerAgainstSdn (fun _ => .ok (.nonArray "status-object"))
      "Jane Doe" true).fst.isSDN = some false ∧
    (checkCustomerAgainstSdn (fun _ => .ok (.nonArray "status-object"))
      "Jane Doe" true).fst.riskLevel = "CLEAR" ∧
    (checkCustomerAgainstSdn (fun _ => .ok (.nonArray "status-object"))
      "Jane Doe" true).fst.matchCount = 0 ∧
    (checkCustomerAgainstSdn (fun _ => .ok (.nonArray "status-object"))
      "Jane Doe" true).fst.error = none ∧
    (checkCustomerAgainstSdn (fun _ => .ok (.nonArray "status-object"))
      "Jane Doe" true).fst.«matches» = .nonArray "status-object" :=
  C9_nonarray_payload_clear (fun _ => .ok (.nonArray "status-object"))
    "Jane Doe" true "status-object" rfl

/-- C10: `getSdnData` issues exactly the request built by
`buildGetSdnParams`, and the `limit` query parameter is appended exactly
when the `limit` argument is nonzero (truthy): with `limit = 0` no
`limit`-keyed parameter appears in the outbound request, and with any
nonzero `limit` its decimal string is sent. -/
theorem C10_limit_param_truthiness (provider : Provider)
    (name country : Option String) (limit : Int) :
    (getSdnData provider name country limit).snd = [buildGetSdnParams name country limit] ∧
    (limit = 0 →
      (buildGetSdnParams name country limit).all (fun p => !(p.fst == "limit")) = true) ∧
    (limit ≠ 0 →
      ("limit", toString limit) ∈ buildGetSdnParams name country limit) := by
  refine ⟨rfl, ?_, ?_⟩
  · intro h
    subst h
    rcases name with _ | s <;> rcases country with _ | t <;>
      simp only [buildGetSdnParams, List.append_nil, List.all_append, if_pos rfl] <;>
      split_ifs <;> simp
  · intro h
    simp [buildGetSdnParams, h]

/-- Witness for C10 at `limit = 0` and `limit = 25`. -/
theorem C10_limit_param_truthiness_witness :
    (getSdnData (fun _ => .ok (.arr [])) (some "Jane Doe") none 0).snd
      = [buildGetSdnParams (some "Jane Doe") none 0] ∧
    (buildGetSdnParams (some "Jane Doe") none 0).all
      (fun p => !(p.fst == "limit")) = true ∧
    ("limit", toString (25 : Int)) ∈ buildGetSdnParams (some "Jane Doe") none 25 :=
  ⟨(C10_limit_param_truthiness (fun _ => .ok (.arr [])) (some "Jane Doe") none 0).1,
   (C10_limit_param_truthiness (fun _ => .ok (.arr [])) (some "Jane Doe") none 0).2.1 rfl,
   (C10_limit_param_truthiness (fun _ => .ok (.arr [])) (some "Jane Doe") none 25).2.2
     (by decide)⟩

/-- C5: for a non-array input or an empty array, `bulkCheckSdn` returns
immediately with exactly the documented failure shape and issues zero
outbound requests. -/
theorem C5_input_validation (provider : Provider) :
    bulkCheckSdn provider .nonArray = (invalidBulkResponse, []) ∧
    bulkCheckSdn provider (.arr []) = (invalidBulkResponse, []) ∧
    invalidBulkResponse =
      { success := false, error := some "customerNames must be a non-empty array",
        results := [], totalChecked := 0, flaggedCount := 0,
        summary := { critical := 0, clear := 0, unknown := 0 } } :=
  ⟨rfl, rfl, rfl⟩

/-- A provider answering 2xx with a non-array JSON body on every request. -/
def providerNonArrayBody : Provider := fun _ => .ok (.nonArray "error-object")

/-- C4 counterexample: with a 2xx non-array body, `getSdnData` does return
`count = 0`, but `data` is the raw non-array payload, not the empty
sequence the claim asserts. -/
theorem C4_counterexample :
    (getSdnData providerNonArrayBody (some "Jane Doe") none 100).fst.success = true ∧
    (getSdnData providerNonArrayBody (some "Jane Doe") none 100).fst.count = 0 ∧
    ¬ (getSdnData providerNonArrayBody (some "Jane Doe") none 100).fst.data = .arr [] := by
  refine ⟨rfl, rfl, ?_⟩
  decide

/-- C4 amended: on a 2xx non-array body, `getSdnData` returns `count = 0`
with `data` holding the raw non-array payload itself (not the empty
sequence); `count = length(data)` holds whenever `success` is true and the
body is an array. -/
theorem C4_amended_nonarray_body (provider : Provider)
    (name country : Option String) (limit : Int) :
    (∀ payload, provider (buildGetSdnParams name country limit) = .ok (.nonArray payload) →
      (getSdnData provider name country limit).fst.success = true ∧
      (getSdnData provider name country limit).fst.count = 0 ∧
      (getSdnData provider name country limit).fst.data = .nonArray payload) ∧
    (∀ rs : List SdnRecord,
      provider (buildGetSdnParams name country limit) = .ok (.arr rs) →
      (getSdnData provider name country limit).fst.success = true ∧
      (getSdnData provider name country limit).fst.count = rs.length ∧
      (getSdnData provider name country limit).fst.data = .arr rs) := by
  constructor
  · intro payload h
    simp [getSdnData, lookupResponse, h]
  · intro rs h
    simp [getSdnData, lookupResponse, h]

/-- Witness for the amended C4 at a non-array body and a one-record body. -/
theorem C4_amended_nonarray_body_witness :
    ((getSdnData providerNonArrayBody (some "Jane Doe") none 100).fst.success = true ∧
      (getSdnData providerNonArrayBody (some "Jane Doe") none 100).fst.count = 0 ∧
      (getSdnData providerNonArrayBody (some "Jane Doe") none 100).fst.data
        = .nonArray "error-object") ∧
    ((getSdnData (fun _ => .ok (.arr [sampleRecord])) (some "Jane Doe") none 100).fst.success = true ∧
      (getSdnData (fun _ => .ok (.arr [sampleRecord])) (some "Jane Doe") none 100).fst.count = 1 ∧
      (getSdnData (fun _ => .ok (.arr [sampleRecord])) (some "Jane Doe") none 100).fst.data
        = .arr [sampleRecord]) :=
  ⟨(C4_amended_nonarray_body providerNonArrayBody (some "Jane Doe") none 100).1
      "error-object" rfl,
   (C4_amended_nonarray_body (fun _ => .ok (.arr [sampleRecord]))
      (some "Jane Doe") none 100).2 [sampleRecord] rfl⟩

/-- C2: for a non-empty name list of length n, `bulkCheckSdn` returns
`totalChecked = n` and `results` of length n, index-aligned with the input:
mapping `customerName` over `results` gives back `names` exactly, so
`results[i].customerName = names[i]` for every index. -/
theorem C2_order_preservation (provider : Provider) (names : List String)
    (h : names ≠ []) :
    (bulkCheckSdn provider (.arr names)).fst.totalChecked = names.length ∧
    (bulkCheckSdn provider (.arr names)).fst.results.length = names.length ∧
    (bulkCheckSdn provider (.arr names)).fst.results.map (fun r => r.customerName)
      = names := by
  have hne : ¬ names.length = 0 := by simpa using h
  simp only [bulkCheckSdn, if_neg hne, List.map_map, List.length_map]
  refine ⟨trivial, trivial, ?_⟩
  have hmap : ∀ n ∈ names,
      ((fun r => r.customerName) ∘ Prod.fst ∘
        fun n => checkCustomerAgainstSdn provider n true) n = n := by
    intro n _
    simp [checkCustomerAgainstSdn, classifyFetch_customerName]
  rw [List.map_congr_left hmap, List.map_id']

/-- Witness for C2 on a concrete two-name batch. -/
theorem C2_order_preservation_witness :
    (bulkCheckSdn (fun _ => .ok (.arr [])) (.arr ["Jane Doe", "John Smith"])).fst.totalChecked = 2 ∧
    (bulkCheckSdn (fun _ => .ok (.arr [])) (.arr ["Jane Doe", "John Smith"])).fst.results.length = 2 ∧
    (bulkCheckSdn (fun _ => .ok (.arr [])) (.arr ["Jane Doe", "John Smith"])).fst.results.map
      (fun r => r.customerName) = ["Jane Doe", "John Smith"] :=
  C2_order_preservation (fun _ => .ok (.arr [])) ["Jane Doe", "John Smith"]
    (List.cons_ne_nil _ _)

/-- C3: whenever a bulk result has `success = true`, the summary tallies
satisfy `critical + clear + unknown = totalChecked` and
`flaggedCount = summary.critical`, with `flaggedCount` counting entries
whose `isSDN` flag is `true`, `summary.clear` counting `CLEAR` entries and
`summary.unknown` counting `UNKNOWN` entries. -/
theorem C3_summary_invariant (provider : Provider) (input : JsInput)
    (h : (bulkCheckSdn provider input).fst.success = true) :
    (bulkCheckSdn provider input).fst.summary.critical
        + (bulkCheckSdn provider input).fst.summary.clear
        + (bulkCheckSdn provider input).fst.summary.unknown
      = (bulkCheckSdn provider input).fst.totalChecked ∧
    (bulkCheckSdn provider input).fst.flaggedCount
      = (bulkCheckSdn provider input).fst.summary.critical ∧
    (bulkCheckSdn provider input).fst.flaggedCount
      = ((bulkCheckSdn provider input).fst.results.filter
          (fun r => r.isSDN == some true)).length ∧
    (bulkCheckSdn provider input).fst.summary.clear
      = ((bulkCheckSdn provider input).fst.results.filter
          (fun r => r.riskLevel == "CLEAR")).length ∧
    (bulkCheckSdn provider input).fst.summary.unknown
      = ((bulkCheckSdn provider input).fst.results.filter
          (fun r => r.riskLevel == "UNKNOWN")).length := by
  cases input with
  | nonArray => simp [bulkCheckSdn, invalidBulkResponse] at h
  | arr names =>
    by_cases hne : names.length = 0
    · simp [bulkCheckSdn, hne, invalidBulkResponse] at h
    · simp only [bulkCheckSdn, if_neg hne]
      refine ⟨?_, trivial, trivial, trivial, trivial⟩
      have hforall : ∀ x ∈ (names.map
            fun n => checkCustomerAgainstSdn provider n true).map Prod.fst,
          ((fun r : CustomerCheckResponse => r.isSDN == some true) x = true ∧
            (fun r : CustomerCheckResponse => r.riskLevel == "CLEAR") x = false ∧
            (fun r : CustomerCheckResponse => r.riskLevel == "UNKNOWN") x = false) ∨
          ((fun r : CustomerCheckResponse => r.isSDN == some true) x = false ∧
            (fun r : CustomerCheckResponse => r.riskLevel == "CLEAR") x = true ∧
            (fun r : CustomerCheckResponse => r.riskLevel == "UNKNOWN") x = false) ∨
          ((fun r : CustomerCheckResponse => r.isSDN == some true) x = false ∧
            (fun r : CustomerCheckResponse => r.riskLevel == "CLEAR") x = false ∧
            (fun r : CustomerCheckResponse => r.riskLevel == "UNKNOWN") x = true) := by
        intro x hx
        rw [List.map_map] at hx
        obtain ⟨n, hn, rfl⟩ := List.mem_map.mp hx
        exact classifyFetch_cases n (provider (buildCheckParams n true))
      have hsum := countP_three_way
        (fun r : CustomerCheckResponse => r.isSDN == some true)
        (fun r : CustomerCheckResponse => r.riskLevel == "CLEAR")
        (fun r : CustomerCheckResponse => r.riskLevel == "UNKNOWN")
        ((names.map fun n => checkCustomerAgainstSdn provider n true).map Prod.fst)
        hforall
      simpa [List.countP_eq_length_filter] using hsum

/-- Witness for C3 on a concrete two-name batch with one flagged name. -/
theorem C3_summary_invariant_witness :
    (bulkCheckSdn (fun _ => .ok (.arr [sampleRecord]))
        (.arr ["Jane Doe", "John Smith"])).fst.summary.critical
        + (bulkCheckSdn (fun _ => .ok (.arr [sampleRecord]))
            (.arr ["Jane Doe", "John Smith"])).fst.summary.clear
        + (bulkCheckSdn (fun _ => .ok (.arr [sampleRecord]))
            (.arr ["Jane Doe", "John Smith"])).fst.summary.unknown
      = (bulkCheckSdn (fun _ => .ok (.arr [sampleRecord]))
          (.arr ["Jane Doe", "John Smith"])).fst.totalChecked ∧
    (bulkCheckSdn (fun _ => .ok (.arr [sampleRecord]))
        (.arr ["Jane Doe", "John Smith"])).fst.flaggedCount
      = (bulkCheckSdn (fun _ => .ok (.arr [sampleRecord]))
          (.arr ["Jane Doe", "John Smith"])).fst.summary.critical ∧
    (bulkCheckSdn (fun _ => .ok (.arr [sampleRecord]))
        (.arr ["Jane Doe", "John Smith"])).fst.flaggedCount
      = ((bulkCheckSdn (fun _ => .ok (.arr [sampleRecord]))
          (.arr ["Jane Doe", "John Smith"])).fst.results.filter
            (fun r => r.isSDN == some true)).length ∧
    (bulkCheckSdn (fun _ => .ok (.arr [sampleRecord]))
        (.arr ["Jane Doe", "John Smith"])).fst.summary.clear
      = ((bulkCheckSdn (fun _ => .ok (.arr [sampleRecord]))
          (.arr ["Jane Doe", "John Smith"])).fst.results.filter
            (fun r => r.riskLevel == "CLEAR")).length ∧
    (bulkCheckSdn (fun _ => .ok (.arr [sampleRecord]))
        (.arr ["Jane Doe", "John Smith"])).fst.summary.unknown
      = ((bulkCheckSdn (fun _ => .ok (.arr [sampleRecord]))
          (.arr ["Jane Doe", "John Smith"])).fst.results.filter
            (fun r => r.riskLevel == "UNKNOWN")).length :=
  C3_summary_invariant (fun _ => .ok (.arr [sampleRecord]))
    (.arr ["Jane Doe", "John Smith"]) rfl

/-- C6: for every non-empty batch the result has `success = true` no
matter how many lookups failed; each output entry is exactly the
single-name check of its own name (so one name's failure cannot affect any
other entry), a failed lookup degrades only that entry to `isSDN = null` /
`UNKNOWN`, and with the provider unreachable for every name the summary is
`{critical: 0, clear: 0, unknown: n}` with `success = true`. -/
theorem C6_partial_failure_tolerance (provider : Provider) (names : List String)
    (h : names ≠ []) (m : Option String) :
    (bulkCheckSdn provider (.arr names)).fst.success = true ∧
    (∀ i : Nat, (bulkCheckSdn provider (.arr names)).fst.results[i]?
        = (names[i]?).map (fun n => (checkCustomerAgainstSdn provider n true).fst)) ∧
    (∀ i : Nat, ∀ n, names[i]? = some n →
      fetchFailed (provider (buildCheckParams n true)) = true →
      ((bulkCheckSdn provider (.arr names)).fst.results.getD i default).isSDN = none ∧
      ((bulkCheckSdn provider (.arr names)).fst.results.getD i default).riskLevel
        = "UNKNOWN") ∧
    (bulkCheckSdn (fun _ => .throwErr m) (.arr names)).fst.success = true ∧
    (bulkCheckSdn (fun _ => .throwErr m) (.arr names)).fst.summary.critical = 0 ∧
    (bulkCheckSdn (fun _ => .throwErr m) (.arr names)).fst.summary.clear = 0 ∧
    (bulkCheckSdn (fun _ => .throwErr m) (.arr names)).fst.summary.unknown
      = names.length := by
  have hne : ¬ names.length = 0 := by simpa using h
  have hloc : ∀ i : Nat, (bulkCheckSdn provider (.arr names)).fst.results[i]?
      = (names[i]?).map (fun n => (checkCustomerAgainstSdn provider n true).fst) := by
    intro i
    simp only [bulkCheckSdn, if_neg hne, List.map_map, List.getElem?_map]
    rfl
  refine ⟨by simp only [bulkCheckSdn, if_neg hne], hloc, ?_,
    by simp only [bulkCheckSdn, if_neg hne], ?_, ?_, ?_⟩
  · intro i n hn hfail
    have hentry := hloc i
    rw [hn] at hentry
    have hclass := classifyFetch_failed n (provider (buildCheckParams n true)) hfail
    rw [List.getD_eq_getElem?_getD, hentry]
    exact ⟨hclass.1, hclass.2.1⟩
  · simp only [bulkCheckSdn, if_neg hne]
    rw [show ∀ l : List CustomerCheckResponse, (List.filter
        (fun r => r.isSDN == some true) l).length = l.countP
        (fun r => r.isSDN == some true) from
      fun l => (List.countP_eq_length_filter _ _).symm]
    rw [List.countP_map]
    simp [Function.comp, checkCustomerAgainstSdn, classifyFetch]
  · simp only [bulkCheckSdn, if_neg hne]
    rw [show ∀ l : List CustomerCheckResponse, (List.filter
        (fun r => r.riskLevel == "CLEAR") l).length = l.countP
        (fun r => r.riskLevel == "CLEAR") from
      fun l => (List.countP_eq_length_filter _ _).symm]
    rw [List.countP_map]
    simp [Function.comp, checkCustomerAgainstSdn, classifyFetch]
  · simp only [bulkCheckSdn, if_neg hne]
    rw [show ∀ l : List CustomerCheckResponse, (List.filter
        (fun r => r.riskLevel == "UNKNOWN") l).length = l.countP
        (fun r => r.riskLevel == "UNKNOWN") from
      fun l => (List.countP_eq_length_filter _ _).symm]
    rw [List.countP_map]
    simp [Function.comp, checkCustomerAgainstSdn, classifyFetch]

/-- A provider that is down exactly for requests naming `bad`, and returns
an empty match list for everyone else. -/
def providerDownFor (bad : String) : Provider := fun ps =>
  if ps.contains ("name", bad) then .throwErr (some "fetch failed")
  else .ok (.arr [])

/-- Witness for C6: a two-name batch in which only the second name's
lookup fails, plus the fully-unreachable-provider scenario. -/
theorem C6_partial_failure_tolerance_witness :
    (bulkCheckSdn (providerDownFor "John Smith")
      (.arr ["Jane Doe", "John Smith"])).fst.success = true ∧
    ((bulkCheckSdn (providerDownFor "John Smith")
      (.arr ["Jane Doe", "John Smith"])).fst.results.getD 1 default).isSDN = none ∧
    ((bulkCheckSdn (providerDownFor "John Smith")
      (.arr ["Jane Doe", "John Smith"])).fst.results.getD 1 default).riskLevel
      = "UNKNOWN" ∧
    (bulkCheckSdn (fun _ => .throwErr (some "fetch failed"))
      (.arr ["Jane Doe", "John Smith"])).fst.success = true ∧
    (bulkCheckSdn (fun _ => .throwErr (some "fetch failed"))
      (.arr ["Jane Doe", "John Smith"])).fst.summary.critical = 0 ∧
    (bulkCheckSdn (fun _ => .throwErr (some "fetch failed"))
      (.arr ["Jane Doe", "John Smith"])).fst.summary.clear = 0 ∧
    (bulkCheckSdn (fun _ => .throwErr (some "fetch failed"))
      (.arr ["Jane Doe", "John Smith"])).fst.summary.unknown = 2 :=
  have ht := C6_partial_failure_tolerance (providerDownFor "John Smith")
    ["Jane Doe", "John Smith"] (List.cons_ne_nil _ _) (some "fetch failed")
  have hdeg := ht.2.2.1 1 "John Smith" rfl (by decide)
  ⟨ht.1, hdeg.1, hdeg.2, ht.2.2.2.1, ht.2.2.2.2.1, ht.2.2.2.2.2.1,
    ht.2.2.2.2.2.2⟩

lemma classifyFetch_null_beq_error (n : String) (out : FetchOutcome) :
    ((classifyFetch n out).isSDN == none) = (classifyFetch n out).error.isSome := by
  cases out <;> simp [classifyFetch]

/-- C7: no failure escapes any of the three operations: for every provider
behavior (network exception or non-2xx included) each operation returns a
result of its declared shape in which a lookup failure shows up as
`success = false` with a populated error, respectively as `isSDN = null` /
risk `UNKNOWN` with a populated error, and every bulk entry satisfies the
same null-iff-error invariant. -/
theorem C7_no_failure_escapes (provider : Provider) (name country : Option String)
    (limit : Int) (customerName : String) (fuzzyMatch : Bool) (input : JsInput) :
    ((getSdnData provider name country limit).fst.success = false ↔
      (getSdnData provider name country limit).fst.error.isSome = true) ∧
    (fetchFailed (provider (buildGetSdnParams name country limit)) = true →
      (getSdnData provider name country limit).fst.success = false) ∧
    ((checkCustomerAgainstSdn provider customerName fuzzyMatch).fst.isSDN = none ↔
      (checkCustomerAgainstSdn provider customerName fuzzyMatch).fst.error.isSome = true) ∧
    (fetchFailed (provider (buildCheckParams customerName fuzzyMatch)) = true →
      (checkCustomerAgainstSdn provider customerName fuzzyMatch).fst.isSDN = none ∧
      (checkCustomerAgainstSdn provider customerName fuzzyMatch).fst.riskLevel
        = "UNKNOWN") ∧
    ((bulkCheckSdn provider input).fst.success = false ↔
      (bulkCheckSdn provider input).fst.error.isSome = true) ∧
    ((bulkCheckSdn provider input).fst.results.all
      (fun r => (r.isSDN == none) == r.error.isSome) = true) := by
  refine ⟨?_, ?_, ?_, ?_, ?_, ?_⟩
  · cases hout : provider (buildGetSdnParams name country limit) <;>
      simp [getSdnData, lookupResponse, hout]
  · intro hfail
    cases hout : provider (buildGetSdnParams name country limit) with
    | throwErr m => simp [getSdnData, lookupResponse, hout]
    | notOk st => simp [getSdnData, lookupResponse, hout]
    | ok body => rw [hout] at hfail; simp [fetchFailed] at hfail
  · cases hout : provider (buildCheckParams customerName fuzzyMatch) <;>
      simp [checkCustomerAgainstSdn, classifyFetch, hout]
  · intro hfail
    have hclass := classifyFetch_failed customerName
      (provider (buildCheckParams customerName fuzzyMatch)) hfail
    exact ⟨hclass.1, hclass.2.1⟩
  · cases input with
    | nonArray => simp [bulkCheckSdn, invalidBulkResponse]
    | arr names =>
      by_cases hne : names.length = 0
      · simp [bulkCheckSdn, hne, invalidBulkResponse]
      · simp only [bulkCheckSdn, if_neg hne]
        simp
  · cases input with
    | nonArray => simp [bulkCheckSdn, invalidBulkResponse]
    | arr names =>
      by_cases hne : names.length = 0
      · simp [bulkCheckSdn, hne, invalidBulkResponse]
      · simp only [bulkCheckSdn, if_neg hne, List.all_eq_true, List.map_map]
        intro r hr
        obtain ⟨n, hn, rfl⟩ := List.mem_map.mp hr
        simp only [beq_iff_eq]
        exact classifyFetch_null_beq_error n (provider (buildCheckParams n true))

/-- Witness for C7 at a provider answering non-2xx to every request. -/
theorem C7_no_failure_escapes_witness :
    ((getSdnData (fun _ => .notOk "Bad Gateway") (some "Jane Doe") none 100).fst.success
        = false ↔
      (getSdnData (fun _ => .notOk "Bad Gateway") (some "Jane Doe") none 100).fst.error.isSome
        = true) ∧
    (getSdnData (fun _ => .notOk "Bad Gateway") (some "Jane Doe") none 100).fst.success
      = false ∧
    ((checkCustomerAgainstSdn (fun _ => .notOk "Bad Gateway") "Jane Doe" true).fst.isSDN
        = none ↔
      (checkCustomerAgainstSdn (fun _ => .notOk "Bad Gateway") "Jane Doe" true).fst.error.isSome
        = true) ∧
    ((checkCustomerAgainstSdn (fun _ => .notOk "Bad Gateway") "Jane Doe" true).fst.isSDN
        = none ∧
      (checkCustomerAgainstSdn (fun _ => .notOk "Bad Gateway") "Jane Doe" true).fst.riskLevel
        = "UNKNOWN") ∧
    ((bulkCheckSdn (fun _ => .notOk "Bad Gateway") (.arr ["Jane Doe"])).fst.success
        = false ↔
      (bulkCheckSdn (fun _ => .notOk "Bad Gateway") (.arr ["Jane Doe"])).fst.error.isSome
        = true) ∧
    ((bulkCheckSdn (fun _ => .notOk "Bad Gateway") (.arr ["Jane Doe"])).fst.results.all
      (fun r => (r.isSDN == none) == r.error.isSome) = true) :=
  have ht := C7_no_failure_escapes (fun _ => .notOk "Bad Gateway")
    (some "Jane Doe") none 100 "Jane Doe" true (.arr ["Jane Doe"])
  ⟨ht.1, ht.2.1 rfl, ht.2.2.1, ht.2.2.2.1 rfl, ht.2.2.2.2.1, ht.2.2.2.2.2⟩

/-- Modelled from the spec: §4.2 says `evaluate` delegates to the Watchlist
Client with `LookupQuery{name: customerName}`, "passing the `fuzzy` flag
through to the provider as a matching-mode hint". `getSdnData` itself has
no fuzzy parameter, so the delegated lookup issues `getSdnData`'s request
for that name (no country, the default limit 100) with the `fuzzy`
parameter appended. -/
def delegatedLookupParams (customerName : String) (fuzzy : Bool) : Params :=
  buildGetSdnParams (some customerName) none 100
    ++ (if fuzzy then [("fuzzy", "true")] else [])

/-- Modelled from the spec: the delegated lookup — `getSdnData`'s response
normalization applied to the provider's outcome at the delegated request. -/
def delegatedLookup (provider : Provider) (customerName : String)
    (fuzzy : Bool) : SdnDataResponse :=
  lookupResponse (provider (delegatedLookupParams customerName fuzzy))

/-- Modelled from the spec: the §4.2 decision rule over a lookup result —
lookup failed → `null` / `UNKNOWN` with the lookup's error; success with
zero matches → `false` / `CLEAR`; success with one or more matches →
`true` / `CRITICAL`, `matchCount` the exact number of records returned and
`matches` the full record sequence. -/
def decisionRule (customerName : String) (lr : SdnDataResponse) :
    CustomerCheckResponse :=
  if lr.success then
    if 0 < lr.count then
      { customerName := customerName, isSDN := some true, matchCount := lr.count,
        «matches» := lr.data, riskLevel := "CRITICAL", error := none }
    else
      { customerName := customerName, isSDN := some false, matchCount := lr.count,
        «matches» := lr.data, riskLevel := "CLEAR", error := none }
  else
    { customerName := customerName, isSDN := none, matchCount := 0,
      «matches» := .arr [], riskLevel := "UNKNOWN", error := lr.error }

/-- Modelled from the spec: `evaluate` as §4.2 words it — the decision
rule applied to the delegated lookup's result. -/
def evaluateViaLookup (provider : Provider) (customerName : String)
    (fuzzy : Bool) : CustomerCheckResponse :=
  decisionRule customerName (delegatedLookup provider customerName fuzzy)

/-- "Same classification": agreement on every observable field of the
check result, comparing the error by presence (the two code paths use
different failure-message prefixes, which the spec does not pin down). -/
def sameClassification (a b : CustomerCheckResponse) : Prop :=
  a.customerName = b.customerName ∧ a.isSDN = b.isSDN ∧
  a.matchCount = b.matchCount ∧ a.«matches» = b.«matches» ∧
  a.riskLevel = b.riskLevel ∧ a.error.isSome = b.error.isSome

instance (a b : CustomerCheckResponse) : Decidable (sameClassification a b) := by
  unfold sameClassification
  infer_instance

/-- A provider whose answer depends on whether the request carries a
`limit` parameter: no matches when it does, one match when it does not.
`checkCustomerAgainstSdn` never sends `limit`, while delegation through
`getSdnData` sends `limit=100`, so the two paths diverge here. -/
def providerLimitSensitive : Provider := fun ps =>
  if ps.any (fun p => p.fst == "limit") then .ok (.arr [])
  else .ok (.arr [sampleRecord])

/-- C8 counterexample: the single-name check is not equivalent to
delegating through `getSdnData` for every provider behavior — the check
omits the `limit` parameter that `getSdnData` sends by default, and a
limit-sensitive provider separates the two paths (`CRITICAL` vs `CLEAR`). -/
theorem C8_counterexample :
    ¬ sameClassification
      (checkCustomerAgainstSdn providerLimitSensitive "Jane Doe" true).fst
      (evaluateViaLookup providerLimitSensitive "Jane Doe" true) := by
  decide

/-- C8 amended: the single-name check produces the same classification as
the §4.2 decision rule applied to the delegated `getSdnData` lookup (with
the fuzzy flag passed through) whenever the provider answers the check's
request and the delegated request alike — in particular for every provider
that ignores the `limit` parameter. -/
theorem C8_amended_delegation_equiv (provider : Provider) (customerName : String)
    (fuzzy : Bool)
    (h : provider (buildCheckParams customerName fuzzy)
       = provider (delegatedLookupParams customerName fuzzy)) :
    sameClassification
      (checkCustomerAgainstSdn provider customerName fuzzy).fst
      (evaluateViaLookup provider customerName fuzzy) := by
  have hcheck : (checkCustomerAgainstSdn provider customerName fuzzy).fst
      = classifyFetch customerName (provider (buildCheckParams customerName fuzzy)) := rfl
  unfold evaluateViaLookup delegatedLookup
  rw [hcheck, ← h]
  cases provider (buildCheckParams customerName fuzzy) with
  | throwErr m =>
    simp [classifyFetch, lookupResponse, decisionRule, sameClassification]
  | notOk st =>
    simp [classifyFetch, lookupResponse, decisionRule, sameClassification]
  | ok body =>
    cases body with
    | arr rs =>
      cases rs with
      | nil => simp [classifyFetch, lookupResponse, decisionRule, sameClassification]
      | cons a l => simp [classifyFetch, lookupResponse, decisionRule, sameClassification]
    | nonArray p =>
      simp [classifyFetch, lookupResponse, decisionRule, sameClassification]

/-- Witness for the amended C8 at a provider that ignores the request. -/
theorem C8_amended_delegation_equiv_witness :
    sameClassification
      (checkCustomerAgainstSdn (fun _ => .ok (.arr [sampleRecord])) "Jane Doe" true).fst
      (evaluateViaLookup (fun _ => .ok (.arr [sampleRecord])) "Jane Doe" true) :=
  C8_amended_delegation_equiv (fun _ => .ok (.arr [sampleRecord])) "Jane Doe" true rfl

end AmlSdn
